import Mathlib

/-!
Shallow embedding of the Rustic-HTTP server (`src/main.rs`): message model,
request parser, router/handler, encoding negotiator and response serializer.

Modelling conventions:
* Rust `String`/`&str` values are Lean `String`s; the primitive string
  operations the program uses (`starts_with`, `trim`, `split_whitespace`,
  `split`, `splitn`, `trim_start_matches`) are re-implemented here over
  `List Char` with the semantics documented in the Rust standard library.
  `char::is_whitespace` is modelled by `Char.isWhitespace` (space, tab, CR,
  LF); exotic Unicode whitespace is outside the inputs considered here.
* `HashMap<String, String>` is modelled by an association list with a
  last-write-wins insert; lookup is by exact key equality, as in the source.
* Byte buffers (`Vec<u8>`) are `List Nat`, each element a byte value.
* External collaborators are parameters: the filesystem (`FS`), the flate2
  gzip compressor (`gzipC : String → List Nat`) and std's UTF-8 decoder
  (`decodeUtf8 : List Nat → Except String String`).  Theorems quantify over
  them, so they hold for the real collaborators in particular.
* The TCP stream feeding the parser is modelled by `StreamInput`: the lines
  the buffered reader yields (line terminators already stripped, as
  `BufRead::read_line`/`lines` do) plus the raw bytes available after the
  header block for `read_exact`.
-/

namespace RusticHTTP

/-- UTF-8 encoding of a single character, as a list of byte values. -/
def utf8Bytes (c : Char) : List Nat :=
  let n := c.toNat
  if n < 128 then [n]
  else if n < 2048 then [192 + n / 64, 128 + n % 64]
  else if n < 65536 then [224 + n / 4096, 128 + n / 64 % 64, 128 + n % 64]
  else [240 + n / 262144, 128 + n / 4096 % 64, 128 + n / 64 % 64, 128 + n % 64]

/-- UTF-8 byte sequence of a string, modelling Rust `str::as_bytes`;
`(bytesOfString s).length` is Rust `s.len()`. -/
def bytesOfString (s : String) : List Nat :=
  s.data.foldr (fun c acc => utf8Bytes c ++ acc) []

/-- Rust `str::starts_with` with a string pattern: prefix test. -/
def strStartsWith (s pat : String) : Bool :=
  pat.data.isPrefixOf s.data

/-- Rust `str::trim`: remove leading and trailing whitespace. -/
def strTrim (s : String) : String :=
  ⟨((s.data.dropWhile Char.isWhitespace).reverse.dropWhile Char.isWhitespace).reverse⟩

/-- Rust `str::split_whitespace`: the maximal nonempty runs of
non-whitespace characters. -/
def splitWhitespace (s : String) : List String :=
  ((s.data.splitOnP Char.isWhitespace).filter (fun w => w ≠ [])).map (fun w => ⟨w⟩)

/-- Rust `str::split(sep)` with a character separator: the pieces between
occurrences of the separator, empty pieces kept. -/
def splitOnChar (sep : Char) (s : String) : List String :=
  (s.data.splitOnP (fun c => c == sep)).map (fun w => ⟨w⟩)

/-- Rust `line.splitn(2, ':')` as used on header lines: split at the first
colon only; `none` when the line has no colon (the header loop then drops
the line). -/
def splitFirstColon (s : String) : Option (String × String) :=
  match s.data.splitOnP (fun c => c == ':') with
  | [] => none
  | [_] => none
  | k :: rest => some (⟨k⟩, ⟨List.intercalate [':'] rest⟩)

/-- Rust `str::trim_start_matches(pat)`: repeatedly remove the pattern
while it is a prefix.  The fuel argument (the length of the subject) bounds
the recursion; each successful strip removes at least one character, so the
fuel never runs out before the pattern stops matching. -/
def trimStartGo : Nat → List Char → List Char → List Char
  | 0, _, s => s
  | fuel + 1, pat, s =>
    if !pat.isEmpty && pat.isPrefixOf s then trimStartGo fuel pat (s.drop pat.length)
    else s

/-- Rust `s.trim_start_matches(pat)` on strings. -/
def trimStartMatches (s pat : String) : String :=
  ⟨trimStartGo s.data.length pat.data s.data⟩

/-- Header mapping, modelling `HashMap<String, String>`: association list
with last-write-wins insertion and exact-key lookup.  Iteration order is one
fixed concretization of the unordered map (the spec guarantees no header
order). -/
abbrev Headers := List (String × String)

/-- Model of `HashMap::insert`: replace any previous binding of the key. -/
def hmInsert (m : Headers) (k v : String) : Headers :=
  m.filter (fun p => !(p.1 == k)) ++ [(k, v)]

/-- Model of `HashMap::get`: the value bound to the key, if any. -/
def hmGet (m : Headers) (k : String) : Option String :=
  (m.find? (fun p => p.1 == k)).map Prod.snd

/-- HTTP methods of `main.rs` (`enum HTTPMethod`). -/
inductive HTTPMethod where
  | GET
  | POST
  | PUT
  | DELETE
deriving DecidableEq

/-- Wire form of a method (`HTTPMethod::as_str`). -/
def HTTPMethod.as_str : HTTPMethod → String
  | .GET => "GET"
  | .POST => "POST"
  | .PUT => "PUT"
  | .DELETE => "DELETE"

/-- Parse a method token (`HTTPMethod::from_str`); unknown tokens give
`none`. -/
def HTTPMethod.from_str : String → Option HTTPMethod
  | "GET" => some .GET
  | "PUT" => some .PUT
  | "POST" => some .POST
  | "DELETE" => some .DELETE
  | _ => none

/-- Content types of `main.rs` (`enum ContentType`). -/
inductive ContentType where
  | PLAIN
  | JSON
  | OCTET
deriving DecidableEq

/-- Wire form of a content type (`ContentType::as_str`). -/
def ContentType.as_str : ContentType → String
  | .PLAIN => "text/plain"
  | .JSON => "application/json"
  | .OCTET => "application/octet-stream"

/-- Encoding schemes of `main.rs` (`enum EncodingScheme`). -/
inductive EncodingScheme where
  | GZIP
deriving DecidableEq

/-- Wire form of an encoding scheme (`EncodingScheme::as_str`). -/
def EncodingScheme.as_str : EncodingScheme → String
  | .GZIP => "gzip"

/-- Parse an encoding-scheme token (`EncodingScheme::from_str`). -/
def EncodingScheme.from_str : String → Option EncodingScheme
  | "gzip" => some .GZIP
  | _ => none

/-- The response model (`struct HTTPResponse`). -/
structure HTTPResponse where
  version : String
  status_code : Nat
  status_msg : String
  headers : Headers
  body : String
  encoded_body : List Nat
  is_encoded : Bool
  content_type : ContentType
deriving DecidableEq

/-- Constructor `HTTPResponse::new`. -/
def HTTPResponse.new (version : String) (status_code : Nat) (status_msg : String) :
    HTTPResponse :=
  { version := version, status_code := status_code, status_msg := status_msg,
    headers := [], body := "", is_encoded := false, encoded_body := [],
    content_type := .PLAIN }

/-- Setter `HTTPResponse::set_encoded_body`. -/
def HTTPResponse.set_encoded_body (r : HTTPResponse) (encoded_data : List Nat) :
    HTTPResponse :=
  { r with encoded_body := encoded_data, is_encoded := true }

/-- Setter `HTTPResponse::set_body`. -/
def HTTPResponse.set_body (r : HTTPResponse) (body : String) : HTTPResponse :=
  { r with body := body, is_encoded := false }

/-- Serializer `HTTPResponse::to_vec`: status line, header lines, blank
line, then whichever body representation is active. -/
def HTTPResponse.to_vec (r : HTTPResponse) : List Nat :=
  let response := bytesOfString
    (r.version ++ " " ++ toString r.status_code ++ " " ++ r.status_msg ++ "\r\n")
  let response := r.headers.foldl
    (fun acc kv => acc ++ bytesOfString (kv.1 ++ ": " ++ kv.2 ++ "\r\n")) response
  let response := response ++ bytesOfString "\r\n"
  if r.is_encoded then response ++ r.encoded_body
  else response ++ bytesOfString r.body

/-- Everything `to_vec` emits before the body: status line, header lines
and the terminating blank line. -/
def HTTPResponse.serializedHead (r : HTTPResponse) : List Nat :=
  let statusLine := bytesOfString
    (r.version ++ " " ++ toString r.status_code ++ " " ++ r.status_msg ++ "\r\n")
  let withHeaders := r.headers.foldl
    (fun acc kv => acc ++ bytesOfString (kv.1 ++ ": " ++ kv.2 ++ "\r\n")) statusLine
  withHeaders ++ bytesOfString "\r\n"

/-- The active body representation: the encoded bytes when `is_encoded` is
set, else the UTF-8 bytes of the raw body. -/
def HTTPResponse.activeBytes (r : HTTPResponse) : List Nat :=
  if r.is_encoded then r.encoded_body else bytesOfString r.body

/-- The request model (`struct HTTPRequest`). -/
structure HTTPRequest where
  method : HTTPMethod
  path : String
  version : String
  headers : Headers
  body : Option String
deriving DecidableEq

/-- Input stream for the parser: the lines the buffered reader yields for
the request line and header block (terminators stripped), and the raw bytes
available after the header block for `read_exact`. -/
structure StreamInput where
  lines : List String
  bodyBytes : List Nat
deriving DecidableEq

/-- Lines of the header block: everything up to the first empty line (or
the end of the stream). -/
def headerLines (ls : List String) : List String :=
  ls.takeWhile (fun l => l ≠ "")

/-- Header-block processing of `parse_request`: split each line at its
first colon, trim name and value, insert into the map (last write wins);
lines without a colon are silently dropped. -/
def processHeaders (ls : List String) : Headers :=
  ls.foldl
    (fun m line =>
      match splitFirstColon line with
      | some (k, v) => hmInsert m (strTrim k) (strTrim v)
      | none => m)
    []

/-- Decimal value of a digit list (used by `parseUsize`). -/
def digitsToNat (l : List Char) : Nat :=
  l.foldl (fun acc c => acc * 10 + (c.toNat - 48)) 0

/-- Rust `str::parse::<usize>()`: an optional leading plus sign, then one
or more ASCII digits, value within the 64-bit range; anything else is a
parse error. -/
def parseUsize (s : String) : Option Nat :=
  let t := if strStartsWith s "+" then (⟨s.data.drop 1⟩ : String) else s
  if t.data ≠ [] ∧ t.data.all Char.isDigit ∧ digitsToNat t.data < 2 ^ 64 then
    some (digitsToNat t.data)
  else none

/-- The first-line tokens the parser works from: read the first line (end
of stream yields the empty string), trim it and split on whitespace. -/
def requestLineTokens (input : StreamInput) : List String :=
  splitWhitespace (strTrim (input.lines.head?.getD ""))

/-- The header map the parser builds from the header block (before the
body step). -/
def preHeaders (input : StreamInput) : Headers :=
  processHeaders (headerLines input.lines.tail)

/-- Parser `HTTPRequest::parse_request`: request line (exactly three
whitespace-separated tokens, known method), header block, then the optional
body driven by the `Content-Length` header.  `decodeUtf8` stands for std's
`String::from_utf8`.  Error messages keep the literal prefixes of the
source; the appended display of the underlying library error is kept only
where the source interpolates a string. -/
def parse_request (decodeUtf8 : List Nat → Except String String)
    (input : StreamInput) : Except String HTTPRequest :=
  let req_line := input.lines.head?.getD ""
  let parts := splitWhitespace (strTrim req_line)
  if parts.length ≠ 3 then .error "Invalid request line"
  else
    match HTTPMethod.from_str (parts.getD 0 "") with
    | none => .error ("Invalid HTTP method: " ++ parts.getD 0 "")
    | some method =>
      let headers := processHeaders (headerLines input.lines.tail)
      match hmGet headers "Content-Length" with
      | some length_str =>
        match parseUsize length_str with
        | none => .error "Error parsing Content-Length"
        | some length =>
          if input.bodyBytes.length < length then .error "Error reading body"
          else
            match decodeUtf8 (input.bodyBytes.take length) with
            | .error e => .error ("Error parsing body as UTF-8: " ++ e)
            | .ok body_str =>
              .ok { method := method, path := parts.getD 1 "",
                    version := parts.getD 2 "", headers := headers,
                    body := some body_str }
      | none =>
        .ok { method := method, path := parts.getD 1 "",
              version := parts.getD 2 "", headers := headers, body := none }

/-- Encoding negotiator `handle_encoding`: when the request advertises
`Accept-Encoding` and a comma-separated, trimmed token equals `gzip`, set
the `Content-Encoding` header and store the compressed current textual
body as the encoded representation; otherwise leave the response alone.
`gzipC` stands for the flate2 gzip compressor at default quality. -/
def handle_encoding (gzipC : String → List Nat) (request : HTTPRequest)
    (response : HTTPResponse) : HTTPResponse :=
  match hmGet request.headers "Accept-Encoding" with
  | some encoding_schemes =>
    let encodings := (splitOnChar ',' encoding_schemes).map strTrim
    if encodings.any (fun e => e == EncodingScheme.GZIP.as_str) then
      let response' := { response with
        headers := hmInsert response.headers "Content-Encoding"
          EncodingScheme.GZIP.as_str }
      response'.set_encoded_body (gzipC response.body)
    else response
  | none => response

/-- Outcomes of the filesystem operations the file route performs
(`fs::File::create` + `write_all`, and `fs::read`), indexed by the resolved
path (and, for the write, the content written).  Error payloads are the
displayed I/O error messages. -/
structure FS where
  createResult : String → Except String Unit
  writeResult : String → String → Except String Unit
  readResult : String → Except String (List Nat)

/-- Routing part of `http_server_response`: default status from the route
table, then the per-route mutations of the draft response.  `dir` is the
base directory taken from the command line (default `"."`). -/
def route_response (dir : String) (fs : FS)
    (decodeUtf8 : List Nat → Except String String)
    (request : HTTPRequest) : HTTPResponse :=
  let path := request.path
  let is_echo_endpoint := strStartsWith path "/echo"
  let is_agent_endpoint := strStartsWith path "/user-agent"
  let is_file_endpoint := strStartsWith path "/files"
  let sp :=
    if path = "/" then ((200 : Nat), "OK")
    else if is_echo_endpoint then (200, "OK")
    else if is_agent_endpoint then (200, "OK")
    else if is_file_endpoint then (200, "OK")
    else (404, "Not Found")
  let response := HTTPResponse.new request.version sp.1 sp.2
  if is_echo_endpoint then
    let response := { response with content_type := ContentType.PLAIN }
    let response := { response with
      headers := hmInsert response.headers "Content-Type" response.content_type.as_str }
    response.set_body (trimStartMatches path "/echo/")
  else if is_agent_endpoint then
    let response := { response with content_type := ContentType.PLAIN }
    let response := { response with
      headers := hmInsert response.headers "Content-Type" response.content_type.as_str }
    match hmGet request.headers "User-Agent" with
    | some user_agent => response.set_body user_agent
    | none =>
      { response with
        status_code := 404,
        status_msg := "User-Agent header not found" }
  else if is_file_endpoint then
    let file_name := trimStartMatches path "/files/"
    let file_path := dir ++ "/" ++ file_name
    match request.method with
    | .POST =>
      match fs.createResult file_path with
      | .ok _ =>
        let file_content := request.body.getD ""
        let response :=
          match fs.writeResult file_path file_content with
          | .error e =>
            let response := { response with
              status_code := 500,
              status_msg := "Internal Server Error" }
            response.set_body ("Failed to write to file: " ++ e)
          | .ok _ => response
        { response with status_code := 201, status_msg := "Created" }
      | .error e =>
        let response := { response with
          status_code := 500,
          status_msg := "Internal Server Error" }
        response.set_body ("Error creating file: " ++ e)
    | .GET =>
      match fs.readResult file_path with
      | .ok file_content =>
        match decodeUtf8 file_content with
        | .ok content =>
          let response := { response with content_type := ContentType.OCTET }
          let response := { response with
            headers := hmInsert response.headers "Content-Type"
              response.content_type.as_str }
          response.set_body content
        | .error _ =>
          let response := { response with
            status_code := 500,
            status_msg := "Internal Server Error" }
          response.set_body ""
      | .error _ =>
        let response := { response with
          status_code := 404,
          status_msg := "Not Found" }
        response.set_body ""
    | _ => { response with status_code := 405, status_msg := "Method Not Allowed" }
  else response

/-- Content-Length finalization at the end of `http_server_response`: set
the header to the byte length of whichever body representation is active. -/
def finalizeContentLength (response : HTTPResponse) : HTTPResponse :=
  let content_length :=
    if response.is_encoded then response.encoded_body.length
    else (bytesOfString response.body).length
  { response with
    headers := hmInsert response.headers "Content-Length" (toString content_length) }

/-- The server's response function `http_server_response`: route the
request, negotiate the encoding, finalize `Content-Length`. -/
def http_server_response (dir : String) (fs : FS)
    (decodeUtf8 : List Nat → Except String String)
    (gzipC : String → List Nat) (request : HTTPRequest) : HTTPResponse :=
  finalizeContentLength
    (handle_encoding gzipC request (route_response dir fs decodeUtf8 request))

/-- Per-connection pipeline `handle_tcp_stream_connect`: parse, and only on
success route and serialize; a parse failure answers nothing (`none`). -/
def handle_connection (dir : String) (fs : FS)
    (decodeUtf8 : List Nat → Except String String)
    (gzipC : String → List Nat) (input : StreamInput) : Option (List Nat) :=
  match parse_request decodeUtf8 input with
  | .error _ => none
  | .ok request => some (http_server_response dir fs decodeUtf8 gzipC request).to_vec

/-! Helper lemmas about the header map, the pipeline stages and prefix
tests, shared by the claim theorems below. -/

theorem hmGet_hmInsert_self (m : Headers) (k v : String) :
    hmGet (hmInsert m k v) k = some v := by
  unfold hmGet hmInsert
  rw [List.find?_append]
  have h1 : (m.filter (fun p => !(p.1 == k))).find? (fun p => p.1 == k) = none := by
    rw [List.find?_eq_none]
    intro x hx
    have := List.of_mem_filter hx
    simpa using this
  rw [h1]
  simp

theorem hmGet_hmInsert_ne (m : Headers) (k k' v : String) (h : k' ≠ k) :
    hmGet (hmInsert m k v) k' = hmGet m k' := by
  unfold hmGet hmInsert
  rw [List.find?_append]
  have h2 : List.find? (fun p => p.1 == k') [(k, v)] = none := by
    have hne : ((k, v).1 == k') = false := beq_eq_false_iff_ne.mpr (fun hk => h hk.symm)
    simp [List.find?, hne]
  rw [h2, Option.or_none]
  have h3 : (m.filter (fun p => !(p.1 == k))).find? (fun p => p.1 == k') =
      m.find? (fun p => p.1 == k') := by
    rw [List.find?_filter]
    congr 1
    funext p
    by_cases hp : p.1 = k'
    · simp [hp, h]
    · simp [hp]
  rw [h3]

theorem to_vec_eq (r : HTTPResponse) :
    r.to_vec = r.serializedHead ++ r.activeBytes := by
  unfold HTTPResponse.to_vec HTTPResponse.serializedHead HTTPResponse.activeBytes
  cases hr : r.is_encoded <;> simp [hr]

/-- The condition under which `handle_encoding` acts, as a boolean: the
request carries `Accept-Encoding` and some comma-separated, trimmed token
equals `gzip`. -/
def acceptsGzip (request : HTTPRequest) : Bool :=
  match hmGet request.headers "Accept-Encoding" with
  | some v => ((splitOnChar ',' v).map strTrim).any (fun e => e == "gzip")
  | none => false

theorem handle_encoding_eq (g : String → List Nat) (req : HTTPRequest)
    (r : HTTPResponse) :
    handle_encoding g req r =
      if acceptsGzip req then
        { r with
          headers := hmInsert r.headers "Content-Encoding" "gzip",
          encoded_body := g r.body,
          is_encoded := true }
      else r := by
  unfold handle_encoding acceptsGzip
  cases h : hmGet req.headers "Accept-Encoding" <;>
    simp [h, HTTPResponse.set_encoded_body, EncodingScheme.as_str]

theorem finalize_activeBytes (r : HTTPResponse) :
    (finalizeContentLength r).activeBytes = r.activeBytes := rfl

theorem finalize_contentLength (r : HTTPResponse) :
    hmGet (finalizeContentLength r).headers "Content-Length" =
      some (toString r.activeBytes.length) := by
  unfold finalizeContentLength HTTPResponse.activeBytes
  cases hr : r.is_encoded <;> simp [hr, hmGet_hmInsert_self]

theorem finalize_get_ne (r : HTTPResponse) (k : String)
    (h : k ≠ "Content-Length") :
    hmGet (finalizeContentLength r).headers k = hmGet r.headers k :=
  hmGet_hmInsert_ne _ _ _ _ h

theorem finalize_status (r : HTTPResponse) :
    (finalizeContentLength r).status_code = r.status_code ∧
    (finalizeContentLength r).status_msg = r.status_msg ∧
    (finalizeContentLength r).body = r.body ∧
    (finalizeContentLength r).is_encoded = r.is_encoded ∧
    (finalizeContentLength r).encoded_body = r.encoded_body :=
  ⟨rfl, rfl, rfl, rfl, rfl⟩

theorem prefix_of_strStartsWith {s p : String} (h : strStartsWith s p = true) :
    p.data <+: s.data := by
  unfold strStartsWith at h
  exact List.isPrefixOf_iff_prefix.mp h

theorem strStartsWith_false_of {s p q : String}
    (h : strStartsWith s p = true) (hlen : q.data.length ≤ p.data.length)
    (hq : ¬ q.data <+: p.data) : strStartsWith s q = false := by
  cases hb : strStartsWith s q
  · rfl
  · exact absurd
      (List.prefix_of_prefix_length_le (prefix_of_strStartsWith hb)
        (prefix_of_strStartsWith h) hlen) hq

theorem ne_root_of_strStartsWith {s p : String} (h : strStartsWith s p = true)
    (hl : 1 < p.data.length) : s ≠ "/" := by
  intro hs
  subst hs
  have hle := (prefix_of_strStartsWith h).length_le
  have h1 : ("/" : String).data.length = 1 := by decide
  rw [h1] at hle
  omega

theorem strStartsWith_false_of' {s p q : String}
    (h : strStartsWith s p = true) (hlen : p.data.length ≤ q.data.length)
    (hq : ¬ p.data <+: q.data) : strStartsWith s q = false := by
  cases hb : strStartsWith s q
  · rfl
  · exact absurd
      (List.prefix_of_prefix_length_le (prefix_of_strStartsWith h)
        (prefix_of_strStartsWith hb) hlen) hq

theorem route_response_echo (dir : String) (fs : FS)
    (dec : List Nat → Except String String) (req : HTTPRequest)
    (h : strStartsWith req.path "/echo" = true) :
    route_response dir fs dec req =
      { version := req.version, status_code := 200, status_msg := "OK",
        headers := [("Content-Type", "text/plain")],
        body := trimStartMatches req.path "/echo/", encoded_body := [],
        is_encoded := false, content_type := .PLAIN } := by
  have hroot : req.path ≠ "/" := ne_root_of_strStartsWith h (by decide)
  unfold route_response
  simp [h, hroot, HTTPResponse.new, HTTPResponse.set_body, ContentType.as_str,
    hmInsert]

theorem route_response_agent (dir : String) (fs : FS)
    (dec : List Nat → Except String String) (req : HTTPRequest)
    (h : strStartsWith req.path "/user-agent" = true) :
    route_response dir fs dec req =
      match hmGet req.headers "User-Agent" with
      | some ua =>
          { version := req.version, status_code := 200, status_msg := "OK",
            headers := [("Content-Type", "text/plain")], body := ua,
            encoded_body := [], is_encoded := false, content_type := .PLAIN }
      | none =>
          { version := req.version, status_code := 404,
            status_msg := "User-Agent header not found",
            headers := [("Content-Type", "text/plain")], body := "",
            encoded_body := [], is_encoded := false, content_type := .PLAIN } := by
  have hroot : req.path ≠ "/" := ne_root_of_strStartsWith h (by decide)
  have hecho : strStartsWith req.path "/echo" = false :=
    strStartsWith_false_of h (by decide) (by decide)
  unfold route_response
  cases hua : hmGet req.headers "User-Agent" <;>
    simp [h, hroot, hecho, hua, HTTPResponse.new, HTTPResponse.set_body,
      ContentType.as_str, hmInsert]

theorem route_response_files_get (dir : String) (fs : FS)
    (dec : List Nat → Except String String) (req : HTTPRequest)
    (h : strStartsWith req.path "/files" = true) (hm : req.method = .GET) :
    route_response dir fs dec req =
      match fs.readResult (dir ++ "/" ++ trimStartMatches req.path "/files/") with
      | .ok bs =>
        match dec bs with
        | .ok content =>
            { version := req.version, status_code := 200, status_msg := "OK",
              headers := [("Content-Type", "application/octet-stream")],
              body := content, encoded_body := [], is_encoded := false,
              content_type := .OCTET }
        | .error _ =>
            { version := req.version, status_code := 500,
              status_msg := "Internal Server Error", headers := [], body := "",
              encoded_body := [], is_encoded := false, content_type := .PLAIN }
      | .error _ =>
          { version := req.version, status_code := 404, status_msg := "Not Found",
            headers := [], body := "", encoded_body := [], is_encoded := false,
            content_type := .PLAIN } := by
  have hroot : req.path ≠ "/" := ne_root_of_strStartsWith h (by decide)
  have hecho : strStartsWith req.path "/echo" = false :=
    strStartsWith_false_of h (by decide) (by decide)
  have hagent : strStartsWith req.path "/user-agent" = false :=
    strStartsWith_false_of' h (by decide) (by decide)
  unfold route_response
  cases hr : fs.readResult (dir ++ "/" ++ trimStartMatches req.path "/files/")
  case ok bs =>
    cases hd : dec bs <;>
      simp [h, hroot, hecho, hagent, hm, hr, hd, HTTPResponse.new,
        HTTPResponse.set_body, ContentType.as_str, hmInsert]
  case error e =>
    simp [h, hroot, hecho, hagent, hm, hr, HTTPResponse.new,
      HTTPResponse.set_body, ContentType.as_str, hmInsert]

theorem route_response_files_post (dir : String) (fs : FS)
    (dec : List Nat → Except String String) (req : HTTPRequest)
    (h : strStartsWith req.path "/files" = true) (hm : req.method = .POST) :
    route_response dir fs dec req =
      match fs.createResult (dir ++ "/" ++ trimStartMatches req.path "/files/") with
      | .ok _ =>
        match fs.writeResult (dir ++ "/" ++ trimStartMatches req.path "/files/")
            (req.body.getD "") with
        | .error e =>
            { version := req.version, status_code := 201, status_msg := "Created",
              headers := [], body := "Failed to write to file: " ++ e,
              encoded_body := [], is_encoded := false, content_type := .PLAIN }
        | .ok _ =>
            { version := req.version, status_code := 201, status_msg := "Created",
              headers := [], body := "", encoded_body := [], is_encoded := false,
              content_type := .PLAIN }
      | .error e =>
          { version := req.version, status_code := 500,
            status_msg := "Internal Server Error", headers := [],
            body := "Error creating file: " ++ e, encoded_body := [],
            is_encoded := false, content_type := .PLAIN } := by
  have hroot : req.path ≠ "/" := ne_root_of_strStartsWith h (by decide)
  have hecho : strStartsWith req.path "/echo" = false :=
    strStartsWith_false_of h (by decide) (by decide)
  have hagent : strStartsWith req.path "/user-agent" = false :=
    strStartsWith_false_of' h (by decide) (by decide)
  unfold route_response
  cases hc : fs.createResult (dir ++ "/" ++ trimStartMatches req.path "/files/")
  case ok u =>
    cases hw : fs.writeResult (dir ++ "/" ++ trimStartMatches req.path "/files/")
        (req.body.getD "") <;>
      simp [h, hroot, hecho, hagent, hm, hc, hw, HTTPResponse.new,
        HTTPResponse.set_body, ContentType.as_str, hmInsert]
  case error e =>
    simp [h, hroot, hecho, hagent, hm, hc, HTTPResponse.new,
      HTTPResponse.set_body, ContentType.as_str, hmInsert]

theorem handle_encoding_get_ne (g : String → List Nat) (req : HTTPRequest)
    (r : HTTPResponse) (k : String) (h : k ≠ "Content-Encoding") :
    hmGet (handle_encoding g req r).headers k = hmGet r.headers k := by
  rw [handle_encoding_eq]
  by_cases hg : acceptsGzip req <;> simp [hg, hmGet_hmInsert_ne _ _ _ _ h]

theorem handle_encoding_preserves (g : String → List Nat) (req : HTTPRequest)
    (r : HTTPResponse) :
    (handle_encoding g req r).status_code = r.status_code ∧
    (handle_encoding g req r).status_msg = r.status_msg ∧
    (handle_encoding g req r).version = r.version ∧
    (handle_encoding g req r).body = r.body ∧
    (handle_encoding g req r).content_type = r.content_type := by
  rw [handle_encoding_eq]
  by_cases hg : acceptsGzip req <;> simp [hg]

theorem acceptsGzip_of_no_header (req : HTTPRequest)
    (h : hmGet req.headers "Accept-Encoding" = none) : acceptsGzip req = false := by
  unfold acceptsGzip
  rw [h]

theorem server_status (dir : String) (fs : FS)
    (dec : List Nat → Except String String) (g : String → List Nat)
    (req : HTTPRequest) :
    (http_server_response dir fs dec g req).status_code =
      (route_response dir fs dec req).status_code ∧
    (http_server_response dir fs dec g req).status_msg =
      (route_response dir fs dec req).status_msg ∧
    (http_server_response dir fs dec g req).version =
      (route_response dir fs dec req).version ∧
    (http_server_response dir fs dec g req).body =
      (route_response dir fs dec req).body := by
  unfold http_server_response
  obtain ⟨h1, h2, h3, h4, -⟩ :=
    handle_encoding_preserves g req (route_response dir fs dec req)
  exact ⟨h1, h2, h3, h4⟩

theorem server_contentLength (dir : String) (fs : FS)
    (dec : List Nat → Except String String) (g : String → List Nat)
    (req : HTTPRequest) :
    hmGet (http_server_response dir fs dec g req).headers "Content-Length" =
      some (toString (http_server_response dir fs dec g req).activeBytes.length) := by
  unfold http_server_response
  rw [finalize_activeBytes, finalize_contentLength]

theorem server_get_other (dir : String) (fs : FS)
    (dec : List Nat → Except String String) (g : String → List Nat)
    (req : HTTPRequest) (k : String) (h1 : k ≠ "Content-Length")
    (h2 : k ≠ "Content-Encoding") :
    hmGet (http_server_response dir fs dec g req).headers k =
      hmGet (route_response dir fs dec req).headers k := by
  unfold http_server_response
  rw [finalize_get_ne _ _ h1, handle_encoding_get_ne _ _ _ _ h2]

theorem server_activeBytes_of_not_gzip (dir : String) (fs : FS)
    (dec : List Nat → Except String String) (g : String → List Nat)
    (req : HTTPRequest) (hg : acceptsGzip req = false) :
    (http_server_response dir fs dec g req).activeBytes =
      (route_response dir fs dec req).activeBytes := by
  unfold http_server_response
  rw [finalize_activeBytes, handle_encoding_eq, hg]
  simp

/-! Sample collaborators used by the closed instances below.  The claim
theorems quantify over the collaborators, so any instantiation is valid;
these are convenient executable ones. -/

/-- Sample filesystem: creation and writes succeed, reads fail. -/
def fsEmpty : FS :=
  ⟨fun _ => .ok (), fun _ _ => .ok (), fun _ => .error "No such file or directory"⟩

/-- Sample filesystem where file creation succeeds but the subsequent
write fails. -/
def fsWriteFails : FS :=
  ⟨fun _ => .ok (), fun _ _ => .error "disk full", fun _ => .error "No such file or directory"⟩

/-- Sample decoder: accepts ASCII byte sequences, on which it agrees with
UTF-8 decoding, and rejects everything else. -/
def asciiDecode : List Nat → Except String String :=
  fun bs =>
    if bs.all (fun b => b < 128) then .ok ⟨bs.map Char.ofNat⟩
    else .error "invalid utf-8 sequence"

/-- Sample compressor: a fixed two-byte header followed by the input
bytes. -/
def gzipSample : String → List Nat :=
  fun s => 31 :: 139 :: bytesOfString s

/-- Strip-once reading of the spec's echo rule: remove one leading
occurrence of the pattern when it is a prefix (contrast with the source's
`trim_start_matches`, which strips the pattern repeatedly). -/
def stripOnce (s pat : String) : String :=
  if strStartsWith s pat then ⟨s.data.drop pat.data.length⟩ else s

/-- C2: every response produced by `http_server_response` carries a
`Content-Length` header whose value is the decimal byte length of the
active body representation (encoded bytes when `is_encoded`, else the raw
body bytes); `to_vec` serializes exactly the active bytes after the head;
an empty active body yields the declared value "0". -/
theorem claim_C2_content_length (dir : String) (fs : FS)
    (dec : List Nat → Except String String) (g : String → List Nat)
    (req : HTTPRequest) :
    hmGet (http_server_response dir fs dec g req).headers "Content-Length" =
      some (toString (http_server_response dir fs dec g req).activeBytes.length) ∧
    (http_server_response dir fs dec g req).to_vec =
      (http_server_response dir fs dec g req).serializedHead ++
        (http_server_response dir fs dec g req).activeBytes ∧
    ((http_server_response dir fs dec g req).activeBytes = [] →
      hmGet (http_server_response dir fs dec g req).headers "Content-Length" =
        some "0") := by
  refine ⟨server_contentLength dir fs dec g req, to_vec_eq _, fun h => ?_⟩
  rw [server_contentLength dir fs dec g req, h]
  rfl

/-- Closed instance of C2: a request to an unmatched path with no
`Accept-Encoding` header is answered with `Content-Length: 0`. -/
theorem claim_C2_witness :
    hmGet (http_server_response "." fsEmpty asciiDecode gzipSample
        { method := .GET, path := "/nowhere", version := "HTTP/1.1",
          headers := [], body := none }).headers "Content-Length" = some "0" :=
  (claim_C2_content_length "." fsEmpty asciiDecode gzipSample _).2.2 (by decide)

/-- C3 counterexample: at path `/echo//echo/hello` the served body is
`hello` (the source strips the pattern repeatedly), not the once-stripped
substring `/echo/hello` described by the claim. -/
theorem claim_C3_counterexample :
    (http_server_response "." fsEmpty asciiDecode gzipSample
        { method := .GET, path := "/echo//echo/hello", version := "HTTP/1.1",
          headers := [], body := none }).body ≠
      stripOnce "/echo//echo/hello" "/echo/" := by decide

/-- C3 (amended): for every request whose path has prefix `/echo`, the
response has status 200 OK, header `Content-Type: text/plain`, and raw
body equal to the path with every leading occurrence of `/echo/`
repeatedly stripped (Rust `trim_start_matches` semantics); when the
request does not advertise `Accept-Encoding`, the declared
`Content-Length` is the byte length of that body (5 for `/echo/hello`). -/
theorem claim_C3_echo_route (dir : String) (fs : FS)
    (dec : List Nat → Except String String) (g : String → List Nat)
    (req : HTTPRequest) (h : strStartsWith req.path "/echo" = true) :
    (http_server_response dir fs dec g req).status_code = 200 ∧
    (http_server_response dir fs dec g req).status_msg = "OK" ∧
    hmGet (http_server_response dir fs dec g req).headers "Content-Type" =
      some "text/plain" ∧
    (http_server_response dir fs dec g req).body =
      trimStartMatches req.path "/echo/" ∧
    (hmGet req.headers "Accept-Encoding" = none →
      hmGet (http_server_response dir fs dec g req).headers "Content-Length" =
        some (toString (bytesOfString (trimStartMatches req.path "/echo/")).length)) := by
  obtain ⟨h1, h2, -, h4⟩ := server_status dir fs dec g req
  have hroute := route_response_echo dir fs dec req h
  refine ⟨?_, ?_, ?_, ?_, fun hae => ?_⟩
  · rw [h1, hroute]
  · rw [h2, hroute]
  · rw [server_get_other dir fs dec g req _ (by decide) (by decide), hroute]
    rfl
  · rw [h4, hroute]
  · have hg := acceptsGzip_of_no_header req hae
    rw [server_contentLength dir fs dec g req,
      server_activeBytes_of_not_gzip dir fs dec g req hg, hroute]
    rfl

/-- Closed instance of C3 (amended): `GET /echo/hello` yields status 200,
body exactly `hello`, `Content-Type: text/plain` and `Content-Length: 5`. -/
theorem claim_C3_witness :
    (http_server_response "." fsEmpty asciiDecode gzipSample
        { method := .GET, path := "/echo/hello", version := "HTTP/1.1",
          headers := [], body := none }).status_code = 200 ∧
    (http_server_response "." fsEmpty asciiDecode gzipSample
        { method := .GET, path := "/echo/hello", version := "HTTP/1.1",
          headers := [], body := none }).body = "hello" ∧
    hmGet (http_server_response "." fsEmpty asciiDecode gzipSample
        { method := .GET, path := "/echo/hello", version := "HTTP/1.1",
          headers := [], body := none }).headers "Content-Length" = some "5" := by
  have h := claim_C3_echo_route "." fsEmpty asciiDecode gzipSample
    { method := .GET, path := "/echo/hello", version := "HTTP/1.1",
      headers := [], body := none } (by decide)
  refine ⟨h.1, ?_, ?_⟩
  · rw [h.2.2.2.1]
    decide
  · rw [h.2.2.2.2 (by decide)]
    decide

/-- C4: the gzip condition of `handle_encoding` is exactly "the request
has an `Accept-Encoding` header whose value, split on commas with each
token trimmed, contains a token equal to `gzip`"; when it holds the
negotiator sets `Content-Encoding: gzip`, stores the compression of the
raw textual body as the encoded representation and marks the response
encoded; otherwise (header absent, or only non-matching tokens, which are
silently ignored) the response is returned untouched. -/
theorem claim_C4_encoding_negotiation (g : String → List Nat)
    (req : HTTPRequest) (r : HTTPResponse) :
    (acceptsGzip req = true ↔
      ∃ v, hmGet req.headers "Accept-Encoding" = some v ∧
        "gzip" ∈ (splitOnChar ',' v).map strTrim) ∧
    handle_encoding g req r =
      (if acceptsGzip req then
        { r with
          headers := hmInsert r.headers "Content-Encoding" "gzip",
          encoded_body := g r.body,
          is_encoded := true }
      else r) := by
  refine ⟨?_, handle_encoding_eq g req r⟩
  unfold acceptsGzip
  cases h : hmGet req.headers "Accept-Encoding"
  · simp
  · simp [List.any_eq_true]

/-- C7: on the `/user-agent` route, a present `User-Agent: v` header gives
status 200, raw body exactly `v` and `Content-Type: text/plain`; an absent
header gives status 404 with message "User-Agent header not found" and an
empty raw body. -/
theorem claim_C7_user_agent_route (dir : String) (fs : FS)
    (dec : List Nat → Except String String) (g : String → List Nat)
    (req : HTTPRequest) (h : strStartsWith req.path "/user-agent" = true) :
    (∀ v, hmGet req.headers "User-Agent" = some v →
      (http_server_response dir fs dec g req).status_code = 200 ∧
      (http_server_response dir fs dec g req).body = v ∧
      hmGet (http_server_response dir fs dec g req).headers "Content-Type" =
        some "text/plain") ∧
    (hmGet req.headers "User-Agent" = none →
      (http_server_response dir fs dec g req).status_code = 404 ∧
      (http_server_response dir fs dec g req).status_msg =
        "User-Agent header not found" ∧
      (http_server_response dir fs dec g req).body = "") := by
  obtain ⟨h1, h2, -, h4⟩ := server_status dir fs dec g req
  have hroute := route_response_agent dir fs dec req h
  constructor
  · intro v hv
    rw [hv] at hroute
    refine ⟨by rw [h1, hroute], by rw [h4, hroute], ?_⟩
    rw [server_get_other dir fs dec g req _ (by decide) (by decide), hroute]
    rfl
  · intro hv
    rw [hv] at hroute
    exact ⟨by rw [h1, hroute], by rw [h2, hroute], by rw [h4, hroute]⟩

/-- Closed instance of C7: `GET /user-agent` with `User-Agent:
test-agent/1.0` gives 200 and body `test-agent/1.0`; without the header it
gives 404 and an empty body. -/
theorem claim_C7_witness :
    ((http_server_response "." fsEmpty asciiDecode gzipSample
        { method := .GET, path := "/user-agent", version := "HTTP/1.1",
          headers := [("User-Agent", "test-agent/1.0")], body := none }).status_code
        = 200 ∧
      (http_server_response "." fsEmpty asciiDecode gzipSample
        { method := .GET, path := "/user-agent", version := "HTTP/1.1",
          headers := [("User-Agent", "test-agent/1.0")], body := none }).body =
        "test-agent/1.0") ∧
    ((http_server_response "." fsEmpty asciiDecode gzipSample
        { method := .GET, path := "/user-agent", version := "HTTP/1.1",
          headers := [], body := none }).status_code = 404 ∧
      (http_server_response "." fsEmpty asciiDecode gzipSample
        { method := .GET, path := "/user-agent", version := "HTTP/1.1",
          headers := [], body := none }).body = "") := by
  constructor
  · have h := (claim_C7_user_agent_route "." fsEmpty asciiDecode gzipSample
      { method := .GET, path := "/user-agent", version := "HTTP/1.1",
        headers := [("User-Agent", "test-agent/1.0")], body := none }
      (by decide)).1 "test-agent/1.0" (by decide)
    exact ⟨h.1, h.2.1⟩
  · have h := (claim_C7_user_agent_route "." fsEmpty asciiDecode gzipSample
      { method := .GET, path := "/user-agent", version := "HTTP/1.1",
        headers := [], body := none } (by decide)).2 (by decide)
    exact ⟨h.1, h.2.2⟩

/-- C9: on the `/user-agent` route with no `User-Agent` request header,
the 404 response still carries `Content-Type: text/plain`, because the
route inserts that header before checking for `User-Agent`. -/
theorem claim_C9_user_agent_404_content_type (dir : String) (fs : FS)
    (dec : List Nat → Except String String) (g : String → List Nat)
    (req : HTTPRequest) (h : strStartsWith req.path "/user-agent" = true)
    (hua : hmGet req.headers "User-Agent" = none) :
    (http_server_response dir fs dec g req).status_code = 404 ∧
    hmGet (http_server_response dir fs dec g req).headers "Content-Type" =
      some "text/plain" := by
  have hroute := route_response_agent dir fs dec req h
  rw [hua] at hroute
  obtain ⟨h1, -, -, -⟩ := server_status dir fs dec g req
  refine ⟨by rw [h1, hroute], ?_⟩
  rw [server_get_other dir fs dec g req _ (by decide) (by decide), hroute]
  rfl

/-- Closed instance of C9: the 404 for a `User-Agent`-less `/user-agent`
request carries `Content-Type: text/plain`. -/
theorem claim_C9_witness :
    hmGet (http_server_response "." fsEmpty asciiDecode gzipSample
        { method := .GET, path := "/user-agent", version := "HTTP/1.1",
          headers := [("Accept", "*/*")], body := none }).headers "Content-Type" =
      some "text/plain" :=
  (claim_C9_user_agent_404_content_type "." fsEmpty asciiDecode gzipSample
    { method := .GET, path := "/user-agent", version := "HTTP/1.1",
      headers := [("Accept", "*/*")], body := none } (by decide) (by decide)).2

/-- C8: on a GET to the `/files` route, a successful read whose bytes
decode as text gives status 200, raw body equal to the decoded contents
and `Content-Type: application/octet-stream`; a successful read whose
bytes do not decode gives status 500 with an empty raw body; a failed read
(file not found included) gives status 404 with an empty raw body.  Every
case yields a well-formed response value (the model is a total function);
no panic path exists. -/
theorem claim_C8_files_get_route (dir : String) (fs : FS)
    (dec : List Nat → Except String String) (g : String → List Nat)
    (req : HTTPRequest) (h : strStartsWith req.path "/files" = true)
    (hm : req.method = .GET) :
    (∀ bs, fs.readResult (dir ++ "/" ++ trimStartMatches req.path "/files/") = .ok bs →
      (∀ s, dec bs = .ok s →
        (http_server_response dir fs dec g req).status_code = 200 ∧
        (http_server_response dir fs dec g req).body = s ∧
        hmGet (http_server_response dir fs dec g req).headers "Content-Type" =
          some "application/octet-stream") ∧
      (∀ e, dec bs = .error e →
        (http_server_response dir fs dec g req).status_code = 500 ∧
        (http_server_response dir fs dec g req).body = "")) ∧
    (∀ e, fs.readResult (dir ++ "/" ++ trimStartMatches req.path "/files/") = .error e →
      (http_server_response dir fs dec g req).status_code = 404 ∧
      (http_server_response dir fs dec g req).body = "") := by
  obtain ⟨h1, -, -, h4⟩ := server_status dir fs dec g req
  constructor
  · intro bs hbs
    constructor
    · intro s hs
      have hroute := route_response_files_get dir fs dec req h hm
      simp only [hbs, hs] at hroute
      refine ⟨by rw [h1, hroute], by rw [h4, hroute], ?_⟩
      rw [server_get_other dir fs dec g req _ (by decide) (by decide), hroute]
      rfl
    · intro e he
      have hroute := route_response_files_get dir fs dec req h hm
      simp only [hbs, he] at hroute
      exact ⟨by rw [h1, hroute], by rw [h4, hroute]⟩
  · intro e he
    have hroute := route_response_files_get dir fs dec req h hm
    simp only [he] at hroute
    exact ⟨by rw [h1, hroute], by rw [h4, hroute]⟩

/-- Closed instance of C8: `GET /files/does-not-exist` against a
filesystem whose read fails yields 404 with an empty body. -/
theorem claim_C8_witness :
    (http_server_response "." fsEmpty asciiDecode gzipSample
        { method := .GET, path := "/files/does-not-exist", version := "HTTP/1.1",
          headers := [], body := none }).status_code = 404 ∧
    (http_server_response "." fsEmpty asciiDecode gzipSample
        { method := .GET, path := "/files/does-not-exist", version := "HTTP/1.1",
          headers := [], body := none }).body = "" :=
  (claim_C8_files_get_route "." fsEmpty asciiDecode gzipSample
    { method := .GET, path := "/files/does-not-exist", version := "HTTP/1.1",
      headers := [], body := none } (by decide) rfl).2
    "No such file or directory" rfl

/-- C1: the code contradicts the claimed 500.  At a POST to
`/files/foo.txt` where file creation succeeds and the subsequent write
fails, the final status is 201 Created — the 500 set in the write-failure
branch is immediately overwritten by the unconditional 201 — while the
body still carries the descriptive write-error message. -/
theorem claim_C1_write_failure_evaluation :
    (http_server_response "." fsWriteFails asciiDecode gzipSample
        { method := .POST, path := "/files/foo.txt", version := "HTTP/1.1",
          headers := [], body := some "abc" }).status_code = 201 ∧
    (http_server_response "." fsWriteFails asciiDecode gzipSample
        { method := .POST, path := "/files/foo.txt", version := "HTTP/1.1",
          headers := [], body := some "abc" }).status_msg = "Created" ∧
    (http_server_response "." fsWriteFails asciiDecode gzipSample
        { method := .POST, path := "/files/foo.txt", version := "HTTP/1.1",
          headers := [], body := some "abc" }).body =
      "Failed to write to file: disk full" := by decide

theorem parse_request_badline (dec : List Nat → Except String String)
    (input : StreamInput) (h3 : (requestLineTokens input).length ≠ 3) :
    parse_request dec input = .error "Invalid request line" := by
  unfold requestLineTokens at h3
  simp [parse_request, h3]

theorem parse_request_badmethod (dec : List Nat → Except String String)
    (input : StreamInput) (h3 : (requestLineTokens input).length = 3)
    (hm : HTTPMethod.from_str ((requestLineTokens input).getD 0 "") = none) :
    parse_request dec input =
      .error ("Invalid HTTP method: " ++ (requestLineTokens input).getD 0 "") := by
  unfold requestLineTokens at h3 hm ⊢
  simp only [parse_request]
  rw [if_neg (not_not_intro h3), hm]

theorem parse_request_body_eq (dec : List Nat → Except String String)
    (input : StreamInput) (m : HTTPMethod)
    (h3 : (requestLineTokens input).length = 3)
    (hm : HTTPMethod.from_str ((requestLineTokens input).getD 0 "") = some m) :
    parse_request dec input =
      match hmGet (preHeaders input) "Content-Length" with
      | some length_str =>
        match parseUsize length_str with
        | none => .error "Error parsing Content-Length"
        | some length =>
          if input.bodyBytes.length < length then .error "Error reading body"
          else
            match dec (input.bodyBytes.take length) with
            | .error e => .error ("Error parsing body as UTF-8: " ++ e)
            | .ok body_str =>
              .ok { method := m, path := (requestLineTokens input).getD 1 "",
                    version := (requestLineTokens input).getD 2 "",
                    headers := preHeaders input, body := some body_str }
      | none =>
        .ok { method := m, path := (requestLineTokens input).getD 1 "",
              version := (requestLineTokens input).getD 2 "",
              headers := preHeaders input, body := none } := by
  unfold requestLineTokens at h3 hm ⊢
  unfold preHeaders
  simp only [parse_request]
  rw [if_neg (not_not_intro h3), hm]

/-- C6: a first line that does not split into exactly three
whitespace-separated tokens makes `parse_request` fail with
"Invalid request line", and a three-token line whose method token is none
of GET, POST, PUT, DELETE makes it fail with "Invalid HTTP method: ..." —
in both cases the connection pipeline produces no response at all, so the
router never runs. -/
theorem claim_C6_request_line_validation (dir : String) (fs : FS)
    (dec : List Nat → Except String String) (g : String → List Nat)
    (input : StreamInput) :
    ((requestLineTokens input).length ≠ 3 →
      parse_request dec input = .error "Invalid request line" ∧
      handle_connection dir fs dec g input = none) ∧
    ((requestLineTokens input).length = 3 →
      HTTPMethod.from_str ((requestLineTokens input).getD 0 "") = none →
      parse_request dec input =
        .error ("Invalid HTTP method: " ++ (requestLineTokens input).getD 0 "") ∧
      handle_connection dir fs dec g input = none) := by
  constructor
  · intro h3
    have hp := parse_request_badline dec input h3
    exact ⟨hp, by unfold handle_connection; rw [hp]⟩
  · intro h3 hm
    have hp := parse_request_badmethod dec input h3 hm
    exact ⟨hp, by unfold handle_connection; rw [hp]⟩

/-- Closed instance of C6: a two-token request line is rejected, and a
`PATCH` request is rejected as an unknown method; neither produces a
response. -/
theorem claim_C6_witness :
    (parse_request asciiDecode ⟨["GET /", ""], []⟩ =
        .error "Invalid request line" ∧
      handle_connection "." fsEmpty asciiDecode gzipSample ⟨["GET /", ""], []⟩ =
        none) ∧
    (parse_request asciiDecode ⟨["PATCH /foo HTTP/1.1", ""], []⟩ =
        .error "Invalid HTTP method: PATCH" ∧
      handle_connection "." fsEmpty asciiDecode gzipSample
        ⟨["PATCH /foo HTTP/1.1", ""], []⟩ = none) := by
  constructor
  · exact (claim_C6_request_line_validation "." fsEmpty asciiDecode gzipSample
      ⟨["GET /", ""], []⟩).1 (by decide)
  · have h := (claim_C6_request_line_validation "." fsEmpty asciiDecode gzipSample
      ⟨["PATCH /foo HTTP/1.1", ""], []⟩).2 (by decide) (by decide)
    exact ⟨by rw [h.1]; rfl, h.2⟩

/-- C5: a successfully parsed request has its headers equal to the parsed
header block; its body is `none` exactly when no `Content-Length` header
was seen, and `some t` exactly when `Content-Length` parsed to `n`, at
least `n` bytes were available (`read_exact` takes the first `n`), and
those bytes decoded to `t`; conversely, an unparsable `Content-Length`, a
short read, and a failed decode each make `parse_request` return an error,
so no request is produced. -/
theorem claim_C5_body_parsing (dec : List Nat → Except String String)
    (input : StreamInput) :
    (∀ req, parse_request dec input = .ok req →
      req.headers = preHeaders input ∧
      (hmGet req.headers "Content-Length" = none → req.body = none) ∧
      (∀ v, hmGet req.headers "Content-Length" = some v →
        ∃ n, parseUsize v = some n ∧ n ≤ input.bodyBytes.length ∧
          ∃ t, dec (input.bodyBytes.take n) = .ok t ∧ req.body = some t)) ∧
    (∀ v, hmGet (preHeaders input) "Content-Length" = some v →
      parseUsize v = none → ∃ e, parse_request dec input = .error e) ∧
    (∀ v n, hmGet (preHeaders input) "Content-Length" = some v →
      parseUsize v = some n → input.bodyBytes.length < n →
      ∃ e, parse_request dec input = .error e) ∧
    (∀ v n e, hmGet (preHeaders input) "Content-Length" = some v →
      parseUsize v = some n → n ≤ input.bodyBytes.length →
      dec (input.bodyBytes.take n) = .error e →
      ∃ e', parse_request dec input = .error e') := by
  by_cases h3 : (requestLineTokens input).length = 3
  · cases hm : HTTPMethod.from_str ((requestLineTokens input).getD 0 "") with
    | none =>
      have hp := parse_request_badmethod dec input h3 hm
      refine ⟨fun req hok => ?_, fun v _ _ => ⟨_, hp⟩, fun v n _ _ _ => ⟨_, hp⟩,
        fun v n e _ _ _ _ => ⟨_, hp⟩⟩
      rw [hp] at hok
      exact absurd hok (by simp)
    | some m =>
      have hp := parse_request_body_eq dec input m h3 hm
      cases hcl : hmGet (preHeaders input) "Content-Length" with
      | none =>
        simp only [hcl] at hp
        refine ⟨fun req hok => ?_, fun v hv => ?_, fun v n hv => ?_,
          fun v n e hv => ?_⟩
        · rw [hp] at hok
          obtain rfl : _ = req := by simpa using hok
          refine ⟨rfl, fun _ => rfl, fun v hv => ?_⟩
          have hv' : hmGet (preHeaders input) "Content-Length" = some v := hv
          rw [hcl] at hv'
          exact absurd hv' (by simp)
        · exact absurd hv (by simp [hcl])
        · exact absurd hv (by simp [hcl])
        · exact absurd hv (by simp [hcl])
      | some v0 =>
        simp only [hcl] at hp
        cases hpu : parseUsize v0 with
        | none =>
          simp only [hpu] at hp
          refine ⟨fun req hok => ?_, fun v hv hn => ⟨_, hp⟩,
            fun v n hv hn => ?_, fun v n e hv hn => ?_⟩
          · rw [hp] at hok
            exact absurd hok (by simp)
          · obtain rfl : v0 = v := Option.some.inj hv
            rw [hpu] at hn
            exact absurd hn (by simp)
          · obtain rfl : v0 = v := Option.some.inj hv
            rw [hpu] at hn
            exact absurd hn (by simp)
        | some n0 =>
          simp only [hpu] at hp
          by_cases hshort : input.bodyBytes.length < n0
          · simp only [if_pos hshort] at hp
            refine ⟨fun req hok => ?_, fun v hv hn => ?_,
              fun v n hv hn hlt => ⟨_, hp⟩, fun v n e hv hn hle hd => ?_⟩
            · rw [hp] at hok
              exact absurd hok (by simp)
            · obtain rfl : v0 = v := Option.some.inj hv
              rw [hpu] at hn
              exact absurd hn (by simp)
            · obtain rfl : v0 = v := Option.some.inj hv
              obtain rfl : n0 = n := by rw [hpu] at hn; exact Option.some.inj hn
              omega
          · simp only [if_neg hshort] at hp
            cases hd0 : dec (input.bodyBytes.take n0) with
            | error e0 =>
              simp only [hd0] at hp
              refine ⟨fun req hok => ?_, fun v hv hn => ?_,
                fun v n hv hn hlt => ?_, fun v n e hv hn hle hd => ⟨_, hp⟩⟩
              · rw [hp] at hok
                exact absurd hok (by simp)
              · obtain rfl : v0 = v := Option.some.inj hv
                rw [hpu] at hn
                exact absurd hn (by simp)
              · obtain rfl : v0 = v := Option.some.inj hv
                obtain rfl : n0 = n := by rw [hpu] at hn; exact Option.some.inj hn
                omega
            | ok t0 =>
              simp only [hd0] at hp
              refine ⟨fun req hok => ?_, fun v hv hn => ?_,
                fun v n hv hn hlt => ?_, fun v n e hv hn hle hd => ?_⟩
              · rw [hp] at hok
                obtain rfl : _ = req := by simpa using hok
                refine ⟨rfl, fun habs => ?_, fun v hv => ?_⟩
                · have habs' : hmGet (preHeaders input) "Content-Length" = none := habs
                  rw [hcl] at habs'
                  exact absurd habs' (by simp)
                · have hv' : hmGet (preHeaders input) "Content-Length" = some v := hv
                  rw [hcl] at hv'
                  obtain rfl : v0 = v := Option.some.inj hv'
                  exact ⟨n0, hpu, by omega, t0, hd0, rfl⟩
              · obtain rfl : v0 = v := Option.some.inj hv
                rw [hpu] at hn
                exact absurd hn (by simp)
              · obtain rfl : v0 = v := Option.some.inj hv
                obtain rfl : n0 = n := by rw [hpu] at hn; exact Option.some.inj hn
                omega
              · obtain rfl : v0 = v := Option.some.inj hv
                obtain rfl : n0 = n := by rw [hpu] at hn; exact Option.some.inj hn
                rw [hd0] at hd
                exact absurd hd (by simp)
  · have hp := parse_request_badline dec input h3
    refine ⟨fun req hok => ?_, fun v _ _ => ⟨_, hp⟩, fun v n _ _ _ => ⟨_, hp⟩,
      fun v n e _ _ _ _ => ⟨_, hp⟩⟩
    rw [hp] at hok
    exact absurd hok (by simp)

/-- Sample parser inputs for the closed instances of C5. -/
def inputOk5 : StreamInput :=
  ⟨["POST /files/a HTTP/1.1", "Content-Length: 3", ""], [97, 98, 99]⟩

/-- Sample input whose `Content-Length` value does not parse. -/
def inputBadCL5 : StreamInput := ⟨["GET / HTTP/1.1", "Content-Length: abc", ""], []⟩

/-- Sample input with fewer body bytes than `Content-Length` declares. -/
def inputShort5 : StreamInput := ⟨["GET / HTTP/1.1", "Content-Length: 5", ""], [97]⟩

/-- Sample input whose body byte is rejected by the decoder. -/
def inputBadUtf5 : StreamInput := ⟨["GET / HTTP/1.1", "Content-Length: 1", ""], [200]⟩

/-- Closed instance of C5: with `Content-Length: 3` and three available
body bytes the parsed body is `some "abc"`; an unparsable
`Content-Length`, a short read and a decoder failure each yield a parse
error. -/
theorem claim_C5_witness :
    (∃ n, parseUsize "3" = some n ∧ n ≤ inputOk5.bodyBytes.length ∧
      ∃ t, asciiDecode (inputOk5.bodyBytes.take n) = .ok t ∧
        ({ method := .POST, path := "/files/a", version := "HTTP/1.1",
           headers := [("Content-Length", "3")],
           body := some "abc" } : HTTPRequest).body = some t) ∧
    (∃ e, parse_request asciiDecode inputBadCL5 = .error e) ∧
    (∃ e, parse_request asciiDecode inputShort5 = .error e) ∧
    (∃ e, parse_request asciiDecode inputBadUtf5 = .error e) := by
  refine ⟨?_, ?_, ?_, ?_⟩
  · exact ((claim_C5_body_parsing asciiDecode inputOk5).1
      { method := .POST, path := "/files/a", version := "HTTP/1.1",
        headers := [("Content-Length", "3")], body := some "abc" }
      (by rfl)).2.2 "3" (by decide)
  · exact (claim_C5_body_parsing asciiDecode inputBadCL5).2.1 "abc"
      (by decide) (by decide)
  · exact (claim_C5_body_parsing asciiDecode inputShort5).2.2.1 "5" 5
      (by decide) (by decide) (by decide)
  · exact (claim_C5_body_parsing asciiDecode inputBadUtf5).2.2.2 "1" 1
      "invalid utf-8 sequence" (by decide) (by decide) (by decide) (by rfl)

theorem toDigitsCore_succ_length_pos (b f n : Nat) :
    0 < (Nat.toDigitsCore b (f + 1) n []).length := by
  have hstep : Nat.toDigitsCore b (f + 1) n [] =
      if n / b = 0 then [Nat.digitChar (n % b)]
      else Nat.toDigitsCore b f (n / b) [Nat.digitChar (n % b)] := rfl
  rw [hstep]
  split
  · simp
  · rw [Nat.toDigitsCore_lens_eq]
    omega

/-- The decimal representation of a nonzero natural number is never the
string "0". -/
theorem natRepr_ne_zero_str {n : Nat} (h : n ≠ 0) : Nat.repr n ≠ "0" := by
  match n, h with
  | m + 1, _ =>
    intro heq
    unfold Nat.repr Nat.toDigits at heq
    have hdata : Nat.toDigitsCore 10 (m + 1 + 1) (m + 1) [] = ['0'] := by
      have := congrArg String.data heq
      simpa [List.asString] using this
    have hstep : Nat.toDigitsCore 10 (m + 1 + 1) (m + 1) [] =
        if (m + 1) / 10 = 0 then [Nat.digitChar ((m + 1) % 10)]
        else Nat.toDigitsCore 10 (m + 1) ((m + 1) / 10)
          [Nat.digitChar ((m + 1) % 10)] := rfl
    rw [hstep] at hdata
    by_cases hd10 : (m + 1) / 10 = 0
    · rw [if_pos hd10] at hdata
      have hm10 : m + 1 < 10 := by
        by_contra hge
        have : 1 ≤ (m + 1) / 10 := Nat.one_le_div_iff (by omega) |>.mpr (by omega)
        omega
      have hmod : (m + 1) % 10 = m + 1 := Nat.mod_eq_of_lt hm10
      rw [hmod] at hdata
      have hm8 : m ≤ 8 := by omega
      interval_cases m <;> exact absurd hdata (by decide)
    · rw [if_neg hd10] at hdata
      have hlen := congrArg List.length hdata
      rw [Nat.toDigitsCore_lens_eq] at hlen
      have hpos := toDigitsCore_succ_length_pos 10 m ((m + 1) / 10)
      have h1 : (['0'] : List Char).length = 1 := rfl
      rw [h1] at hlen
      omega

/-- C10: encoding negotiation applies after every route: whenever the
request's `Accept-Encoding` tokens contain `gzip`, the final response is
marked encoded, carries `Content-Encoding: gzip`, its transmitted (active)
body is the compression of the raw body, and the declared `Content-Length`
is the compressed byte length; in particular, when the raw body is empty
(unmatched path, root, `/user-agent` without its header, ...), the
transmitted body is the compression of the empty string, and whenever that
compression is nonempty — as real gzip output always is — the declared
length is not "0". -/
theorem claim_C10_encoding_on_every_route (dir : String) (fs : FS)
    (dec : List Nat → Except String String) (g : String → List Nat)
    (req : HTTPRequest) (hg : acceptsGzip req = true) :
    (http_server_response dir fs dec g req).is_encoded = true ∧
    hmGet (http_server_response dir fs dec g req).headers "Content-Encoding" =
      some "gzip" ∧
    (http_server_response dir fs dec g req).encoded_body =
      g (http_server_response dir fs dec g req).body ∧
    (http_server_response dir fs dec g req).activeBytes =
      g (http_server_response dir fs dec g req).body ∧
    hmGet (http_server_response dir fs dec g req).headers "Content-Length" =
      some (toString (g (http_server_response dir fs dec g req).body).length) ∧
    ((http_server_response dir fs dec g req).body = "" → (g "").length ≠ 0 →
      hmGet (http_server_response dir fs dec g req).headers "Content-Length" ≠
        some "0") := by
  have hE := handle_encoding_eq g req (route_response dir fs dec req)
  rw [if_pos hg] at hE
  have hsrv : http_server_response dir fs dec g req =
      finalizeContentLength
        { route_response dir fs dec req with
          headers := hmInsert (route_response dir fs dec req).headers
            "Content-Encoding" "gzip",
          encoded_body := g (route_response dir fs dec req).body,
          is_encoded := true } := by
    unfold http_server_response
    rw [hE]
  refine ⟨by rw [hsrv]; rfl, ?_, by rw [hsrv]; rfl, by rw [hsrv]; rfl, ?_, ?_⟩
  · rw [hsrv, finalize_get_ne _ _ (by decide)]
    exact hmGet_hmInsert_self _ _ _
  · rw [hsrv, finalize_contentLength]
    rfl
  · intro hb h0 hEq
    have hb0 : (route_response dir fs dec req).body = "" := by
      rw [hsrv] at hb
      exact hb
    rw [hsrv, finalize_contentLength] at hEq
    have hstr : toString (g (route_response dir fs dec req).body).length = "0" :=
      Option.some.inj hEq
    rw [hb0] at hstr
    exact natRepr_ne_zero_str h0 hstr

/-- Closed instance of C10: a request to an unmatched path whose
`Accept-Encoding` is `br, gzip` yields an encoded response with
`Content-Encoding: gzip` whose declared `Content-Length` is the length of
the compressed empty body, not "0". -/
theorem claim_C10_witness :
    (http_server_response "." fsEmpty asciiDecode gzipSample
        { method := .GET, path := "/nope", version := "HTTP/1.1",
          headers := [("Accept-Encoding", "br, gzip")],
          body := none }).is_encoded = true ∧
    hmGet (http_server_response "." fsEmpty asciiDecode gzipSample
        { method := .GET, path := "/nope", version := "HTTP/1.1",
          headers := [("Accept-Encoding", "br, gzip")],
          body := none }).headers "Content-Encoding" = some "gzip" ∧
    hmGet (http_server_response "." fsEmpty asciiDecode gzipSample
        { method := .GET, path := "/nope", version := "HTTP/1.1",
          headers := [("Accept-Encoding", "br, gzip")],
          body := none }).headers "Content-Length" ≠ some "0" := by
  have h := claim_C10_encoding_on_every_route "." fsEmpty asciiDecode gzipSample
    { method := .GET, path := "/nope", version := "HTTP/1.1",
      headers := [("Accept-Encoding", "br, gzip")], body := none } (by decide)
  exact ⟨h.1, h.2.1, h.2.2.2.2.2 (by decide) (by decide)⟩

end RusticHTTP
